import Mathlib

/-!
Shallow embedding of the PortFly tunnel runtime core, translated from
`core/ssh/client.go`, `core/ssh/auth.go`, the session manager
(`SessionManager`), and `core/models` of the aqz236/port-fly repository.
SSH clients, network connections, listeners and host keys are modelled by
numeric identifiers; time is modelled by natural-number instants; every
operation that mutates state is a pure function returning the new state.
-/

namespace PortFly

/-- Pool key produced by `ConnectionPool.getConnectionKey` (client.go:280):
the `username@host:port` triple identifying a pooled SSH connection. -/
structure PoolKey where
  username : String
  host : String
  port : Nat
deriving DecidableEq, Repr

/-- `PooledConnection` (client.go:26): one pooled SSH connection.  The
`*ssh.Client` pointer is modelled by `Option Nat` (`none` = nil/dead). -/
structure PooledConnection where
  client : Option Nat
  createdAt : Nat
  lastUsed : Nat
  inUse : Bool
deriving DecidableEq, Repr

/-- `ConnectionPool` (client.go:17): the `connections` map is modelled as an
association list keyed by `PoolKey`; `maxSize` caps installed entries. -/
structure ConnectionPool where
  connections : List (PoolKey × PooledConnection)
  maxSize : Nat
deriving DecidableEq, Repr

/-- Lookup in the modelled `connections` map. -/
def alistLookup (l : List (PoolKey × PooledConnection)) (k : PoolKey) :
    Option PooledConnection :=
  match l with
  | [] => none
  | (kv : PoolKey × PooledConnection) :: rest =>
      if kv.1 = k then some kv.2 else alistLookup rest k

/-- Map assignment `cp.connections[key] = v` of Go: replace an existing entry
or append a new one. -/
def alistInsert (l : List (PoolKey × PooledConnection)) (k : PoolKey)
    (v : PooledConnection) : List (PoolKey × PooledConnection) :=
  match l with
  | [] => [(k, v)]
  | (kv : PoolKey × PooledConnection) :: rest =>
      if kv.1 = k then (k, v) :: rest else kv :: alistInsert rest k v

/-- Map deletion `delete(cp.connections, key)` of Go. -/
def alistErase (l : List (PoolKey × PooledConnection)) (k : PoolKey) :
    List (PoolKey × PooledConnection) :=
  match l with
  | [] => []
  | (kv : PoolKey × PooledConnection) :: rest =>
      if kv.1 = k then rest else kv :: alistErase rest k

/-- `ConnectionPool.Get` (client.go:285-313).  Under the pool lock: a missing
key fails with "connection not found in pool"; an entry whose `inUse` flag is
set fails with "connection is already in use"; a nil client is deleted and
fails with "connection is dead"; otherwise the entry is marked in use, its
`lastUsed` is refreshed, and the same client is returned. -/
def ConnectionPool.get (cp : ConnectionPool) (k : PoolKey) (now : Nat) :
    Except String Nat × ConnectionPool :=
  match alistLookup cp.connections k with
  | none => (.error "connection not found in pool", cp)
  | some conn =>
    if conn.inUse then
      (.error "connection is already in use", cp)
    else
      match conn.client with
      | none =>
          (.error "connection is dead",
            { cp with connections := alistErase cp.connections k })
      | some cl =>
          (.ok cl,
            { cp with
                connections := alistInsert cp.connections k
                  ({ conn with inUse := true, lastUsed := now }) })

/-- `ConnectionPool.Put` (client.go:316-337).  If the pool already holds
`maxSize` entries the new client is closed and nothing is installed (the
returned Bool is `true` when the client was closed instead of pooled);
otherwise the map slot for the key is overwritten with a fresh entry whose
`inUse` flag starts `true` ("initially in use by the creator"). -/
def ConnectionPool.put (cp : ConnectionPool) (k : PoolKey) (client : Nat)
    (now : Nat) : ConnectionPool × Bool :=
  if cp.connections.length ≥ cp.maxSize then
    (cp, true)
  else
    ({ cp with
        connections := alistInsert cp.connections k
          ({ client := some client, createdAt := now, lastUsed := now,
             inUse := true }) },
      false)

/-- `SSHClient.Connect` with a pool (client.go:81-120, 123-189), for a client
that is not yet connected: try `pool.Get` first and reuse its client without
any handshake; on any `Get` error fall through to `createConnection`, which
performs a fresh SSH handshake and `Put`s the new client into the pool.
Result: (client id used, whether an SSH handshake was performed, new pool);
`fresh` is the id the new handshake would produce. -/
def sshClientConnect (cp : ConnectionPool) (k : PoolKey) (now : Nat)
    (fresh : Nat) : Nat × Bool × ConnectionPool :=
  match cp.get k now with
  | (.ok cl, cp2) => (cl, false, cp2)
  | (.error _, cp2) =>
      let put := cp2.put k fresh now
      (fresh, true, put.1)

/-- `models.SessionStatus` (core/models, session model). -/
inductive SessionStatus where
  | created
  | connecting
  | connected
  | active
  | stopping
  | stopped
  | error
  | disconnected
deriving DecidableEq, Repr

/-- `models.SessionStats` (core/models): connection counters, byte counters,
activity timestamps.  Go `int64` counters are modelled as `Int`; the
`*time.Time` fields as `Option Nat`. -/
structure SessionStats where
  totalConnections : Int
  activeConnections : Int
  failedConnections : Int
  bytesSent : Int
  bytesReceived : Int
  lastActivityAt : Option Nat
  reconnectCount : Int
  lastReconnectAt : Option Nat
deriving DecidableEq, Repr

/-- The zero value of `models.SessionStats`. -/
def SessionStats.zero : SessionStats :=
  { totalConnections := 0, activeConnections := 0, failedConnections := 0,
    bytesSent := 0, bytesReceived := 0, lastActivityAt := none,
    reconnectCount := 0, lastReconnectAt := none }

/-- The closures passed to `TunnelManager.updateStats` in client.go:
connection entry (client.go:831-834), connection exit (client.go:835-837),
a failed connection (client.go:844/855/1052/…), and the byte-counter folds of
`TunnelManager.transfer` (client.go:1105-1109 and 1121-1125).  `io.Copy`
returns a non-negative byte count, so the added amounts are `Nat`. -/
inductive StatsOp where
  | connEnter
  | connExit
  | connFailed
  | addSent (bytes : Nat) (now : Nat)
  | addReceived (bytes : Nat) (now : Nat)
deriving DecidableEq, Repr

/-- Apply one `updateStats` closure (client.go:1148-1152 serialises them under
`statsMu`, so tunnel statistics evolve by a sequence of these operations). -/
def applyStatsOp : StatsOp → SessionStats → SessionStats
  | .connEnter, s =>
      { s with totalConnections := s.totalConnections + 1,
               activeConnections := s.activeConnections + 1 }
  | .connExit, s =>
      { s with activeConnections := s.activeConnections - 1 }
  | .connFailed, s =>
      { s with failedConnections := s.failedConnections + 1 }
  | .addSent bytes now, s =>
      { s with bytesSent := s.bytesSent + bytes,
               lastActivityAt := some now }
  | .addReceived bytes now, s =>
      { s with bytesReceived := s.bytesReceived + bytes,
               lastActivityAt := some now }

/-- `models.TunnelType` (core/models): local/remote/dynamic, plus the
`default` case of the `switch` in `TunnelManager.Start` for any other tag. -/
inductive TunnelKind where
  | localFwd
  | remoteFwd
  | dynamicFwd
  | other
deriving DecidableEq, Repr

/-- The fields of `models.TunnelConfig` (core/models/project.go:179-201) used
by the data plane. -/
structure TunnelConfig where
  kind : TunnelKind
  localPort : Nat
  remoteHost : String
  remotePort : Nat
  socksVersion : Nat
  maxConnections : Nat
  idleTimeout : Nat
deriving DecidableEq, Repr

/-- `TunnelManager` mutable state (client.go:647-662): the `running` flag, the
`stopChan` close state, the listeners slice (ids of open listeners), the set of
tracked open connections, and the statistics record. -/
structure TunnelManager where
  running : Bool
  stopChanClosed : Bool
  openListeners : List Nat
  openConnections : List Nat
  stats : SessionStats
deriving DecidableEq, Repr

/-- `TunnelManager.Stop` (client.go:719-749): the compare-and-swap on
`running` makes a second call return "tunnel is not running" without touching
anything; a first call on a running manager closes `stopChan`, closes every
listener and every tracked connection, and waits for the goroutines. -/
def TunnelManager.stop (tm : TunnelManager) :
    Except String Unit × TunnelManager :=
  if tm.running then
    (.ok (),
      { tm with running := false, stopChanClosed := true,
                openListeners := [], openConnections := [] })
  else
    (.error "tunnel is not running", tm)

/-- Environment outcomes consumed by one `TunnelManager.Start` invocation:
whether `config.Validate()` passes, whether the SSH connection is (or can be)
established, whether the listener bind succeeds, and the id of the listener a
successful bind would produce. -/
structure StartEnv where
  validateOk : Bool
  sshOk : Bool
  listenOk : Bool
  newListener : Nat
deriving DecidableEq, Repr

/-- `TunnelManager.Start` (client.go:675-716): CAS `running` 0→1 (failing with
"tunnel is already running"), validate the configuration, ensure the SSH
connection, then dispatch on the tunnel type; each forwarding starter either
fails before registering a listener or appends the new listener and succeeds;
every error path stores `running = 0` before returning. -/
def TunnelManager.start (tm : TunnelManager) (cfg : TunnelConfig)
    (env : StartEnv) : Except String Unit × TunnelManager :=
  if tm.running then
    (.error "tunnel is already running", tm)
  else if env.validateOk = false then
    (.error "invalid tunnel configuration", { tm with running := false })
  else if env.sshOk = false then
    (.error "failed to establish SSH connection", { tm with running := false })
  else
    match cfg.kind with
    | .other =>
        (.error "unsupported tunnel type", { tm with running := false })
    | _ =>
        if env.listenOk = false then
          (.error "failed to listen", { tm with running := false })
        else
          (.ok (),
            { tm with running := true,
                      openListeners := tm.openListeners ++ [env.newListener] })

/-- `TunnelManager.copyData` (client.go:1136-1145) over one direction of a
spliced connection, abstracted to the trace of chunk arrival instants (strictly
increasing, measured from the start of the transfer's wall clock): when
`config.IdleTimeout > 0` the function computes `deadline = start + IdleTimeout`
ONCE, installs it as the read deadline, and never refreshes it, so `io.Copy`
delivers exactly the chunks arriving at or before that fixed deadline and the
first later read times out, closing the connection; when `IdleTimeout = 0` no
deadline is set and every chunk is delivered. -/
def copyDataDelivered (cfg : TunnelConfig) (start : Nat)
    (arrivals : List Nat) : List Nat :=
  if cfg.idleTimeout = 0 then arrivals
  else arrivals.takeWhile (fun t => t ≤ start + cfg.idleTimeout)

/-- Gaps between consecutive arrival instants of a trace (the first gap is
measured from `start`): the idle periods a true idle timeout would compare
against the configured window. -/
def arrivalGaps (start : Nat) : List Nat → List Nat
  | [] => []
  | t :: rest => (t - start) :: arrivalGaps t rest

/-- Longest idle period of a trace. -/
def maxArrivalGap (start : Nat) (arrivals : List Nat) : Nat :=
  (arrivalGaps start arrivals).foldl Nat.max 0

/-- The admission step of `TunnelManager.handleLocalConnection`
(client.go:822-837): every accepted local connection is tracked and the
counters are incremented unconditionally — the code never compares
`stats.ActiveConnections` with `config.MaxConnections` (the `cfg` argument is
in scope as `tm.config` but the function does not consult it), and
`models.SessionStats` has no rejected-connections counter at all. -/
def handleLocalConnAdmit (_cfg : TunnelConfig) (s : SessionStats) :
    SessionStats :=
  applyStatsOp .connEnter s

/-- The remainder of `TunnelManager.handleLocalConnection`
(client.go:839-868) after admission: a missing SSH client or a failed SSH dial
increments `FailedConnections` and returns; otherwise `transfer` folds the two
directions' byte counts into the stats; the deferred update decrements
`ActiveConnections` on exit. -/
def handleLocalConnection (cfg : TunnelConfig) (sshAvailable dialOk : Bool)
    (sent received now : Nat) (s : SessionStats) : SessionStats :=
  let s1 := handleLocalConnAdmit cfg s
  let finish := fun (st : SessionStats) => applyStatsOp .connExit st
  if sshAvailable = false then
    finish (applyStatsOp .connFailed s1)
  else if dialOk = false then
    finish (applyStatsOp .connFailed s1)
  else
    finish (applyStatsOp (.addReceived received now)
      (applyStatsOp (.addSent sent now) s1))

/-- `TunnelManager.handleSOCKS4` (client.go:1158-1161): a stub that always
fails. -/
def handleSOCKS4 : Except String String :=
  .error "SOCKS4 not implemented yet"

/-- `TunnelManager.handleSOCKS5` (client.go:1164-1167): a stub that always
fails — no greeting is read, no method is negotiated, no reply byte is ever
written. -/
def handleSOCKS5 : Except String String :=
  .error "SOCKS5 not implemented yet"

/-- Outcome of one accepted SOCKS connection. -/
inductive SOCKSOutcome where
  | spliced
  | protocolFailed
  | noSSHClient
  | dialFailed
deriving DecidableEq, Repr

/-- `TunnelManager.handleSOCKSConnection` (client.go:1024-1094): admit and
count the connection, run the SOCKS handshake for the configured version
(4 → `handleSOCKS4`, 5 → `handleSOCKS5`, otherwise "unsupported SOCKS
version"), and only if the handshake returned a target address dial it over
SSH and splice; every failure increments `FailedConnections`; the deferred
update decrements `ActiveConnections` on exit. -/
def handleSOCKSConnection (socksVersion : Nat) (sshAvailable dialOk : Bool)
    (s : SessionStats) : SOCKSOutcome × SessionStats :=
  let s1 := applyStatsOp .connEnter s
  let finish := fun (st : SessionStats) => applyStatsOp .connExit st
  let handshake : Except String String :=
    match socksVersion with
    | 4 => handleSOCKS4
    | 5 => handleSOCKS5
    | _ => .error "unsupported SOCKS version"
  match handshake with
  | .error _ => (.protocolFailed, finish (applyStatsOp .connFailed s1))
  | .ok _ =>
      if sshAvailable = false then
        (.noSSHClient, finish (applyStatsOp .connFailed s1))
      else if dialOk = false then
        (.dialFailed, finish (applyStatsOp .connFailed s1))
      else
        (.spliced, finish s1)

/-- The retry loop of `SSHClient.Reconnect` (client.go:249-274):
`for i := 0; i < MaxRetries; i++` attempts `Connect` and returns on the first
success; with `MaxRetries = 0` the loop body never runs and the function
falls through to the failure return.  `succeeds i` tells whether attempt `i`
would succeed; the result is the index of the first successful attempt among
`0 .. maxRetries-1`, or `none` when the budget is exhausted (or zero). -/
def reconnectFirstSuccess (maxRetries : Nat) (succeeds : Nat → Bool) :
    Option Nat :=
  (List.range maxRetries).find? succeeds

/-- The error message of the failure return of `SSHClient.Reconnect`
(client.go:274). -/
def reconnectErrMsg (maxRetries : Nat) (lastErr : String) : String :=
  "failed to reconnect after " ++ toString maxRetries ++ " attempts: "
    ++ lastErr

/-- `SessionManager.applyDefaultSSHConfig` on `MaxRetries` (part_004, manager
source, lines 544-546): a zero `MaxRetries` is treated as unset and replaced
by the manager-wide default — it never survives as a retry-forever marker. -/
def applyDefaultMaxRetries (cfgMaxRetries defaultMaxRetries : Nat) : Nat :=
  if cfgMaxRetries = 0 then defaultMaxRetries else cfgMaxRetries

/-- The `models.Session` fields the session manager mutates (part_004 manager
source): status, last error, connect/disconnect instants, statistics. -/
structure SessionRec where
  status : SessionStatus
  lastError : Option String
  connectedAt : Option Nat
  disconnectedAt : Option Nat
  stats : SessionStats
deriving DecidableEq, Repr

/-- `SessionManager.stopSession` (part_004 manager source, lines 378-409):
set `Stopping`, stop the tunnel if it is running, disconnect the SSH client,
then set `Stopped` and record `DisconnectedAt`. -/
def stopSessionRun (now : Nat) (s : SessionRec) (tm : TunnelManager) :
    SessionRec × TunnelManager :=
  let tm2 := if tm.running then (tm.stop).2 else tm
  ({ s with status := .stopped, disconnectedAt := some now }, tm2)

/-- `SessionManager.StopSession` (part_004 manager source, lines 412-439)
composed with the supervisor's handling of the stop signal: a session already
`Stopped` or `Stopping` is rejected with "session is already stopped or
stopping" and nothing changes; otherwise the stop signal drives
`stopSession`. -/
def StopSession (now : Nat) (s : SessionRec) (tm : TunnelManager) :
    Except String Unit × SessionRec × TunnelManager :=
  if s.status = .stopped ∨ s.status = .stopping then
    (.error "session is already stopped or stopping", s, tm)
  else
    let r := stopSessionRun now s tm
    (.ok (), r.1, r.2)

/-- The reconnection branch of `SessionManager.monitorSession` (part_004
manager source, lines 344-371): on a lost SSH connection set `Connecting`,
bump `ReconnectCount`, record `LastReconnectAt`, and call
`SSHClient.Reconnect` with the session's retry budget; on success the session
returns to `Active`; on failure it records the reconnect error in `LastError`,
passes through `Error`, and `stopSession` leaves it `Stopped`. -/
def monitorReconnectStep (maxRetries : Nat) (succeeds : Nat → Bool)
    (lastErr : String) (now : Nat) (s : SessionRec) (tm : TunnelManager) :
    SessionRec × TunnelManager :=
  let s1 :=
    { s with status := .connecting,
             stats := { s.stats with
                          reconnectCount := s.stats.reconnectCount + 1,
                          lastReconnectAt := some now } }
  match reconnectFirstSuccess maxRetries succeeds with
  | some _ => ({ s1 with status := .active }, tm)
  | none =>
      stopSessionRun now
        ({ s1 with status := .error,
                   lastError := some (reconnectErrMsg maxRetries lastErr) })
        tm

/-- The host-key verifier returned by
`AuthManager.createInteractiveHostKeyCallback` for the `ask` policy together
with `AuthManager.saveHostKey` (auth.go:243-284).  The known-hosts file is a
list of `(hostname, key)` lines (`none` when no file is configured); host keys
are modelled by ids.  The callback accepts every presented key: it never reads
the file, never compares the presented key with a recorded one, and — when a
file is configured — unconditionally appends a new `host key` line. -/
def interactiveHostKeyCheck (knownHostsFile : Option (List (String × Nat)))
    (hostname : String) (key : Nat) :
    Except String Unit × Option (List (String × Nat)) :=
  match knownHostsFile with
  | some entries => (.ok (), some (entries ++ [(hostname, key)]))
  | none => (.ok (), none)

/-! Concrete fixtures used by witnesses and counterexamples. -/

/-- A pool key for user alice on the gateway host. -/
def keyAlice : PoolKey :=
  { username := "alice", host := "gw.example.com", port := 22 }

/-- A pool key for user bob on a second host. -/
def keyBob : PoolKey :=
  { username := "bob", host := "db.example.com", port := 2222 }

/-- A live pooled entry that is not currently handed out. -/
def entryLiveFree : PooledConnection :=
  { client := some 7, createdAt := 0, lastUsed := 0, inUse := false }

/-- A live pooled entry whose handout is still outstanding (`inUse`). -/
def entryLiveBusy : PooledConnection :=
  { client := some 9, createdAt := 2, lastUsed := 3, inUse := true }

/-- An empty pool with room for ten entries. -/
def poolEmpty : ConnectionPool := { connections := [], maxSize := 10 }

/-- A pool at capacity (`maxSize = 1`) holding one live, free entry. -/
def poolFree : ConnectionPool :=
  { connections := [(keyAlice, entryLiveFree)], maxSize := 1 }

/-- A pool at capacity (`maxSize = 1`) holding one live, in-use entry. -/
def poolFullBusy : ConnectionPool :=
  { connections := [(keyBob, entryLiveBusy)], maxSize := 1 }

/-- A local-forwarding rule with `MaxConnections = 1` and a ten-unit
`IdleTimeout`. -/
def cfgLocal1 : TunnelConfig :=
  { kind := .localFwd, localPort := 18080, remoteHost := "example.internal",
    remotePort := 80, socksVersion := 5, maxConnections := 1,
    idleTimeout := 10 }

/-- A tunnel manager that is not running and holds nothing. -/
def tmIdle : TunnelManager :=
  { running := false, stopChanClosed := false, openListeners := [],
    openConnections := [], stats := SessionStats.zero }

/-- An active session record. -/
def sessActive : SessionRec :=
  { status := .active, lastError := none, connectedAt := some 1,
    disconnectedAt := none, stats := SessionStats.zero }

/-! Theorems settling the claims. -/

/-- Claim C2 (code bug).  The claim says a connection that keeps transferring
bytes at intervals shorter than `idleTimeout = T` is never closed by the idle
mechanism.  In the code, `TunnelManager.copyData` computes the deadline once
at transfer start and never refreshes it, so with `T = 10` a connection whose
chunks arrive every `5 = T/2` units (maximum idle gap 5 < 10) still loses
every chunk after instant 10: the copy is cut off at the fixed deadline even
though the connection was never idle for `T`. -/
theorem copyData_deadline_not_idle :
    cfgLocal1.idleTimeout = 10 ∧
    maxArrivalGap 0 [5, 10, 15, 20] = 5 ∧
    copyDataDelivered cfgLocal1 0 [5, 10, 15, 20] = [5, 10] ∧
    copyDataDelivered cfgLocal1 0 [5, 10, 15, 20] ≠ [5, 10, 15, 20] := by
  refine ⟨rfl, by decide, by decide, by decide⟩

/-- Claim C3 (code bug).  The claim says a local connection accepted while
`stats.activeConnections ≥ maxConcurrentConnections` is rejected by immediate
close and counted in a `rejected` counter.  `handleLocalConnection` admits
every accepted connection unconditionally: with `MaxConnections = 1`, a second
connection admitted while the first is still active drives
`activeConnections` to 2 instead of being rejected (and `models.SessionStats`
has no rejected counter at all). -/
theorem local_admission_ignores_max_connections :
    cfgLocal1.maxConnections = 1 ∧
    (handleLocalConnAdmit cfgLocal1
        (handleLocalConnAdmit cfgLocal1 SessionStats.zero)).activeConnections
      = 2 := by
  refine ⟨rfl, by decide⟩

/-- Claim C4 (code bug).  The claim says a well-formed SOCKS5 CONNECT request
completes the handshake with reply code 0x00 and is spliced with an SSH
channel.  `TunnelManager.handleSOCKS5` is an unimplemented stub returning an
error, so every connection of a version-5 dynamic tunnel ends in
`protocolFailed` — no handshake is read, no reply is written, and no splice
ever happens, whatever the SSH client and dial would do. -/
theorem socks5_stub_never_splices :
    handleSOCKS5 = .error "SOCKS5 not implemented yet" ∧
    ∀ (sshAvailable dialOk : Bool) (s : SessionStats),
      (handleSOCKSConnection 5 sshAvailable dialOk s).1 = .protocolFailed := by
  refine ⟨rfl, ?_⟩
  intro sshAvailable dialOk s
  rfl

/-- Claim C6 (code bug).  The claim says the `ask` policy appends a host's key
only when the host is not yet recorded, and fails the handshake with
`HostKeyMismatch` when a recorded host presents a different key.  The
`ask` callback of `AuthManager` accepts every key: with `gw.example.com`
already recorded under key 1 and the peer presenting key 2, the callback
returns success and appends a second line for the same host — and it returns
success for every file state, host, and key. -/
theorem ask_policy_accepts_mismatch :
    interactiveHostKeyCheck (some [("gw.example.com", 1)]) "gw.example.com" 2
      = (.ok (), some [("gw.example.com", 1), ("gw.example.com", 2)]) ∧
    ∀ (file : Option (List (String × Nat))) (host : String) (key : Nat),
      (interactiveHostKeyCheck file host key).1 = .ok () := by
  refine ⟨rfl, ?_⟩
  intro file host key
  cases file <;> rfl

/-- Looking up a key right after the map assignment for that key yields the
assigned value. -/
theorem alistLookup_insert (l : List (PoolKey × PooledConnection))
    (k : PoolKey) (v : PooledConnection) :
    alistLookup (alistInsert l k v) k = some v := by
  induction l with
  | nil => simp [alistInsert, alistLookup]
  | cons hd tl ih =>
      by_cases h : hd.1 = k <;> simp [alistInsert, alistLookup, h, ih]

/-- Claim C1 counterexample.  Starting from an empty pool, a first Connect
installs the entry with `inUse = true`; a second Connect for the same key,
issued while the first handout is still outstanding, does NOT receive the
pooled transport: `Get` fails on the in-use entry, a second SSH handshake is
performed, and the client obtained differs from the first one. -/
theorem second_acquire_new_handshake_cex :
    (sshClientConnect poolEmpty keyAlice 0 100).2.1 = true ∧
    (sshClientConnect (sshClientConnect poolEmpty keyAlice 0 100).2.2
        keyAlice 1 101).2.1 = true ∧
    (sshClientConnect (sshClientConnect poolEmpty keyAlice 0 100).2.2
        keyAlice 1 101).1
      ≠ (sshClientConnect poolEmpty keyAlice 0 100).1 := by
  refine ⟨by decide, by decide, by decide⟩

/-- Claim C1 (amended).  For a pool holding a live entry under a key, `Get`
succeeds with that same client exactly when the entry is not currently handed
out, marking it in use; while the first handout is outstanding (`inUse`),
a `Get` for the same key fails with "connection is already in use", leaves the
pool unchanged, and the caller's `Connect` performs a second SSH handshake. -/
theorem pool_get_reuse_amended (cp : ConnectionPool) (k : PoolKey)
    (e : PooledConnection) (now fresh c : Nat)
    (hlook : alistLookup cp.connections k = some e)
    (hc : e.client = some c) :
    (e.inUse = false →
      (cp.get k now).1 = .ok c ∧
      alistLookup (cp.get k now).2.connections k =
        some ({ e with inUse := true, lastUsed := now })) ∧
    (e.inUse = true →
      (cp.get k now).1 = .error "connection is already in use" ∧
      (cp.get k now).2 = cp ∧
      (sshClientConnect cp k now fresh).2.1 = true) := by
  constructor
  · intro hfree
    have hget : cp.get k now =
        (.ok c,
          { cp with
              connections := alistInsert cp.connections k
                ({ e with inUse := true, lastUsed := now }) }) := by
      simp [ConnectionPool.get, hlook, hfree, hc]
    rw [hget]
    exact ⟨rfl, alistLookup_insert cp.connections k _⟩
  · intro hbusy
    have hget : cp.get k now = (.error "connection is already in use", cp) := by
      simp [ConnectionPool.get, hlook, hbusy]
    refine ⟨by rw [hget], by rw [hget], ?_⟩
    simp [sshClientConnect, hget]

/-- Witness for the amended C1 at two concrete pools: a free live entry is
reused and marked in-use; an in-use entry makes the second Connect
handshake. -/
theorem pool_get_reuse_amended_witness :
    ((poolFree.get keyAlice 5).1 = .ok 7 ∧
      alistLookup (poolFree.get keyAlice 5).2.connections keyAlice =
        some ({ entryLiveFree with inUse := true, lastUsed := 5 })) ∧
    ((poolFullBusy.get keyBob 5).1 = .error "connection is already in use" ∧
      (poolFullBusy.get keyBob 5).2 = poolFullBusy ∧
      (sshClientConnect poolFullBusy keyBob 5 42).2.1 = true) :=
  ⟨(pool_get_reuse_amended poolFree keyAlice entryLiveFree 5 42 7
      (by decide) (by decide)).1 (by decide),
   (pool_get_reuse_amended poolFullBusy keyBob entryLiveBusy 5 42 9
      (by decide) (by decide)).2 (by decide)⟩

/-- Claim C7 counterexample.  A pool at capacity (one entry, `maxSize = 1`)
holding a live entry whose handout is outstanding: `Get` for that existing
key fails — refuting "acquiring an existing key always succeeds while that
entry is live". -/
theorem capacity_inuse_get_fails_cex :
    poolFullBusy.connections.length = poolFullBusy.maxSize ∧
    entryLiveBusy.client = some 9 ∧
    (poolFullBusy.get keyBob 7).1 = .error "connection is already in use" := by
  refine ⟨by decide, by decide, rfl⟩

/-- Claim C7 (amended).  For a pool at capacity: `Get` of an absent key fails
(with "connection not found in pool" — `Get` never creates entries at any
fill level, and there is no `PoolExhausted` error) and leaves the pool
unchanged, and `Put` of a new client closes it instead of installing it; `Get`
of an existing live key succeeds only when the entry is not currently in
use. -/
theorem pool_capacity_amended (cp : ConnectionPool) (k : PoolKey)
    (now client : Nat)
    (hfull : cp.connections.length = cp.maxSize) :
    (alistLookup cp.connections k = none →
      (cp.get k now).1 = .error "connection not found in pool" ∧
      (cp.get k now).2 = cp ∧
      (cp.put k client now).1 = cp ∧
      (cp.put k client now).2 = true) ∧
    (∀ e : PooledConnection, alistLookup cp.connections k = some e →
      e.inUse = false → ∀ c : Nat, e.client = some c →
      (cp.get k now).1 = .ok c) := by
  constructor
  · intro habsent
    have hput : cp.put k client now = (cp, true) := by
      simp [ConnectionPool.put, hfull.ge]
    refine ⟨?_, ?_, by rw [hput], by rw [hput]⟩
    · simp [ConnectionPool.get, habsent]
    · simp [ConnectionPool.get, habsent]
  · intro e hlook hfree c hc
    simp [ConnectionPool.get, hlook, hfree, hc]

/-- Witness for the amended C7 at two concrete pools at capacity: an absent
key fails without installing, and a present free live entry still
succeeds. -/
theorem pool_capacity_amended_witness :
    ((poolFullBusy.get keyAlice 7).1 = .error "connection not found in pool" ∧
      (poolFullBusy.get keyAlice 7).2 = poolFullBusy ∧
      (poolFullBusy.put keyAlice 55 7).1 = poolFullBusy ∧
      (poolFullBusy.put keyAlice 55 7).2 = true) ∧
    (poolFree.get keyAlice 6).1 = .ok 7 :=
  ⟨(pool_capacity_amended poolFullBusy keyAlice 7 55 (by decide)).1
      (by decide),
   (pool_capacity_amended poolFree keyAlice 6 55 (by decide)).2
      entryLiveFree (by decide) (by decide) 7 (by decide)⟩

/-- Claim C5 counterexample.  With `maxRetries = 0` the reconnect loop makes
zero attempts and gives up immediately — even when every attempt would have
succeeded — and the supervisor's reconnect branch then drives the session to
`Stopped`: the opposite of "retry forever". -/
theorem reconnect_zero_retries_gives_up_cex :
    reconnectFirstSuccess 0 (fun _ => true) = none ∧
    (monitorReconnectStep 0 (fun _ => true) "dial tcp: connection refused" 9
        sessActive tmIdle).1.status = .stopped := by
  refine ⟨rfl, rfl⟩

/-- Claim C5 (amended).  `maxRetries = 0` does not mean retry forever: the
retry loop of `SSHClient.Reconnect` makes zero attempts and fails immediately,
and `CreateSession` replaces a zero `MaxRetries` with the manager default
before the session ever runs.  With `maxRetries = k > 0` and `k` consecutive
failed attempts, the supervisor ends the session in `Stopped` with the
reconnect error - which carries the last transient error - preserved in
`lastError`. -/
theorem reconnect_budget_amended (k d now : Nat) (succeeds : Nat → Bool)
    (lastErr : String) (s : SessionRec) (tm : TunnelManager)
    (_hk : 0 < k) (hfail : ∀ i, succeeds i = false) :
    reconnectFirstSuccess k succeeds = none ∧
    (monitorReconnectStep k succeeds lastErr now s tm).1.status = .stopped ∧
    (monitorReconnectStep k succeeds lastErr now s tm).1.lastError =
      some (reconnectErrMsg k lastErr) ∧
    reconnectFirstSuccess 0 succeeds = none ∧
    applyDefaultMaxRetries 0 d = d := by
  have hnone : reconnectFirstSuccess k succeeds = none := by
    simp only [reconnectFirstSuccess, List.find?_eq_none]
    intro x hx
    simp [hfail x]
  refine ⟨hnone, ?_, ?_, rfl, by simp [applyDefaultMaxRetries]⟩
  · simp [monitorReconnectStep, hnone, stopSessionRun]
  · simp [monitorReconnectStep, hnone, stopSessionRun]

/-- Witness for the amended C5: budget `k = 3`, every attempt failing. -/
theorem reconnect_budget_amended_witness :
    reconnectFirstSuccess 3 (fun _ => false) = none ∧
    (monitorReconnectStep 3 (fun _ => false) "dial failed" 9 sessActive
        tmIdle).1.status = .stopped ∧
    (monitorReconnectStep 3 (fun _ => false) "dial failed" 9 sessActive
        tmIdle).1.lastError = some (reconnectErrMsg 3 "dial failed") ∧
    reconnectFirstSuccess 0 (fun _ => false) = none ∧
    applyDefaultMaxRetries 0 5 = 5 :=
  reconnect_budget_amended 3 5 9 (fun _ => false) "dial failed" sessActive
    tmIdle (by decide) (fun _ => rfl)

/-- Claim C8 (confirmed).  Stop is idempotent: the compare-and-swap in
`TunnelManager.Stop` makes a second Stop a pure no-op on the manager state,
and `SessionManager.StopSession` rejects a session already stopped or
stopping without touching it — so two Stops leave exactly the state of a
single Stop (status, listeners, connections, statistics alike). -/
theorem stop_idempotent (tm : TunnelManager) (s : SessionRec) (n1 n2 : Nat) :
    ((tm.stop).2.stop).2 = (tm.stop).2 ∧
    (StopSession n2 (StopSession n1 s tm).2.1 (StopSession n1 s tm).2.2).2 =
      (StopSession n1 s tm).2 := by
  constructor
  · by_cases h : tm.running <;> simp [TunnelManager.stop, h]
  · by_cases h : s.status = .stopped ∨ s.status = .stopping <;>
      simp [StopSession, stopSessionRun, h]

/-- Each single `updateStats` closure leaves `bytesSent` and `bytesReceived`
no smaller (the byte-adding closures add the non-negative count returned by
`io.Copy`; the others do not touch the byte counters). -/
theorem applyStatsOp_bytes_mono (op : StatsOp) (s : SessionStats) :
    s.bytesSent ≤ (applyStatsOp op s).bytesSent ∧
    s.bytesReceived ≤ (applyStatsOp op s).bytesReceived := by
  cases op <;> simp [applyStatsOp]

/-- Claim C9 (confirmed).  Along any sequence of tunnel-manager statistics
operations — splicer byte folds, connection enter/exit/failure — the
`bytesSent` and `bytesReceived` counters never decrease, and
`TunnelManager.Stop` does not modify the statistics at all. -/
theorem bytes_counters_monotone (ops : List StatsOp) (s : SessionStats)
    (tm : TunnelManager) :
    (s.bytesSent ≤ (ops.foldl (fun a op => applyStatsOp op a) s).bytesSent ∧
     s.bytesReceived ≤
       (ops.foldl (fun a op => applyStatsOp op a) s).bytesReceived) ∧
    (tm.stop).2.stats = tm.stats := by
  constructor
  · induction ops generalizing s with
    | nil => exact ⟨le_refl _, le_refl _⟩
    | cons op rest ih =>
        have h1 := applyStatsOp_bytes_mono op s
        have h2 := ih (applyStatsOp op s)
        exact ⟨le_trans h1.1 h2.1, le_trans h1.2 h2.2⟩
  · by_cases h : tm.running <;> simp [TunnelManager.stop, h]

/-- A `TunnelManager.Start` on a non-running manager never reports "tunnel is
already running": the compare-and-swap branch is not taken. -/
theorem start_not_already_running (tm : TunnelManager) (cfg : TunnelConfig)
    (env : StartEnv) (h : tm.running = false) :
    (tm.start cfg env).1 ≠ .error "tunnel is already running" := by
  by_cases hv : env.validateOk = false
  · simp [TunnelManager.start, h, hv]
  · by_cases hs : env.sshOk = false
    · simp [TunnelManager.start, h, hv, hs]
    · cases hk : cfg.kind <;>
        by_cases hl : env.listenOk = false <;>
        simp [TunnelManager.start, h, hv, hs, hk, hl]

/-- Claim C10 (confirmed).  A failing `TunnelManager.Start` is atomic: when a
Start invoked on a non-running manager returns an error (invalid
configuration, SSH connect failure, unsupported type, or listen failure), the
manager is left not running with its listener list unchanged, and a
subsequent Start is not rejected as already running. -/
theorem start_failure_atomic (tm : TunnelManager) (cfg cfg2 : TunnelConfig)
    (env env2 : StartEnv) (e : String)
    (hrun : tm.running = false)
    (herr : (tm.start cfg env).1 = .error e) :
    (tm.start cfg env).2.running = false ∧
    (tm.start cfg env).2.openListeners = tm.openListeners ∧
    ((tm.start cfg env).2.start cfg2 env2).1 ≠
      .error "tunnel is already running" := by
  have hstate : (tm.start cfg env).2.running = false ∧
      (tm.start cfg env).2.openListeners = tm.openListeners := by
    by_cases hv : env.validateOk = false
    · simp [TunnelManager.start, hrun, hv]
    · by_cases hs : env.sshOk = false
      · simp [TunnelManager.start, hrun, hv, hs]
      · cases hk : cfg.kind <;>
          by_cases hl : env.listenOk = false <;>
          simp [TunnelManager.start, hrun, hv, hs, hk, hl] at herr ⊢
  exact ⟨hstate.1, hstate.2,
    start_not_already_running (tm.start cfg env).2 cfg2 env2 hstate.1⟩

/-- Witness for C10: an idle manager, a Start failing configuration
validation. -/
theorem start_failure_atomic_witness :
    tmIdle.running = false ∧
    ((tmIdle.start cfgLocal1
        ({ validateOk := false, sshOk := true, listenOk := true,
           newListener := 3 })).2.running = false ∧
     (tmIdle.start cfgLocal1
        ({ validateOk := false, sshOk := true, listenOk := true,
           newListener := 3 })).2.openListeners = tmIdle.openListeners ∧
     ((tmIdle.start cfgLocal1
          ({ validateOk := false, sshOk := true, listenOk := true,
             newListener := 3 })).2.start cfgLocal1
        ({ validateOk := false, sshOk := true, listenOk := true,
           newListener := 3 })).1 ≠ .error "tunnel is already running") :=
  ⟨rfl,
    start_failure_atomic tmIdle cfgLocal1 cfgLocal1
      ({ validateOk := false, sshOk := true, listenOk := true,
         newListener := 3 })
      ({ validateOk := false, sshOk := true, listenOk := true,
         newListener := 3 })
      "invalid tunnel configuration" rfl rfl⟩

end PortFly
